import Mathlib

/-!
Verification development for the restaurant_webscraper repository.

The repository contains two near-duplicate scraper implementations:
- src/extractor.py, class GoogleMapsExtractorA
- src/test.py, class GoogleMapsExtractor

This file gives a shallow embedding of both pipelines.  Pure string and
regular-expression operations of the Python source are implemented directly
over Lean strings (character lists).  Browser/DOM interactions are modelled
by environment records supplying, for each CSS/XPath selector consulted by
the source, the value the corresponding selenium call would produce
(element text, aria-label attribute, raised-or-absent outcomes), so every
definition below mirrors the control flow of the cited Python function over
those oracle inputs.  Plain wall-clock sleeps, scrolling, and script clicks
have no observable effect on the returned record and appear only through
their outcome fields in the environments.
-/

namespace GMaps

/-! ## Python string and regex primitives -/

/-- Characters treated as whitespace by Python's str.strip and the regex
class \s (ASCII fragment, which is all the source ever meets). -/
def isPySpace (c : Char) : Bool :=
  c = ' ' || c = '\t' || c = '\n' || c = '\x0d' || c = '\x0b' || c = '\x0c'

/-- Model of Python str.strip(): drop whitespace from both ends. -/
def pyStripList (l : List Char) : List Char :=
  ((l.dropWhile isPySpace).reverse.dropWhile isPySpace).reverse

/-- Model of Python str.strip() on strings. -/
def pyStrip (s : String) : String :=
  String.mk (pyStripList s.data)

/-- Numeric value of a digit string, as produced by Python int() on a
nonempty all-digit string. -/
def natOfDigits (ds : List Char) : Nat :=
  ds.foldl (fun a c => a * 10 + (c.toNat - 48)) 0

/-- Character class [\d,] used by the review-count regexes. -/
def isDigitComma (c : Char) : Bool :=
  c.isDigit || c = ','

/-- Case-insensitive prefix test; the pattern is given in lowercase,
matching Python's re.IGNORECASE handling of literal letters. -/
def ciStartsWith : List Char → List Char → Bool
  | [], _ => true
  | _ :: _, [] => false
  | p :: ps, c :: cs => (c.toLower = p) && ciStartsWith ps cs

/-- Exact (case-sensitive) prefix test. -/
def startsWithList : List Char → List Char → Bool
  | [], _ => true
  | _ :: _, [] => false
  | p :: ps, c :: cs => (p = c) && startsWithList ps cs

/-- Python `pat in s` substring test (case-sensitive). -/
def containsSubList (pat : List Char) : List Char → Bool
  | [] => pat.isEmpty
  | c :: cs => startsWithList pat (c :: cs) || containsSubList pat cs

/-- Python `pat in s.lower()` substring test, pattern given lowercase. -/
def containsCISub (pat : List Char) : List Char → Bool
  | [] => pat.isEmpty
  | c :: cs => ciStartsWith pat (c :: cs) || containsCISub pat cs

/-- Substring test on strings. -/
def strContains (s pat : String) : Bool :=
  containsSubList pat.data s.data

/-- Model of `re.search(r"(\d+)\s?star", aria, re.IGNORECASE)`-style
patterns: leftmost occurrence of a digit run, followed by a whitespace run
(required nonempty iff needWs, i.e. \s+ versus \s*), followed by the
case-insensitive literal pat; returns the captured number.  Since the
literal starts with a letter, only the maximal digit run at each start
position can match, which coincides with the Python engine's
leftmost-match-with-greedy-backtracking semantics for these patterns. -/
def searchNumBeforeCI (needWs : Bool) (pat : List Char) : List Char → Option Nat
  | [] => none
  | c :: cs =>
    if c.isDigit then
      let ds := (c :: cs).takeWhile Char.isDigit
      let rest := (c :: cs).dropWhile Char.isDigit
      let ws := rest.takeWhile isPySpace
      let rest2 := rest.dropWhile isPySpace
      if (!needWs || !ws.isEmpty) && ciStartsWith pat rest2 then some (natOfDigits ds)
      else searchNumBeforeCI needWs pat cs
    else searchNumBeforeCI needWs pat cs

/-- `re.search(r"(\d+)\s?star", aria, re.IGNORECASE)` with \s? written as
\s* in the source (src/extractor.py line 319, src/test.py line 439). -/
def searchStarNum (s : String) : Option Nat :=
  searchNumBeforeCI false ['s', 't', 'a', 'r'] s.data

/-- Model of `_parse_date_ago_text`: `re.search(r"(\d+)\s+years?", s,
re.IGNORECASE)` (src/extractor.py lines 82-89); empty input yields None. -/
def parseDateAgoText (s : String) : Option Nat :=
  searchNumBeforeCI true ['y', 'e', 'a', 'r'] s.data

/-- Outcome of a Python fragment `int(match.group(1).replace(",", ""))`
guarded by `re.search`: no match at all, a parsed number, or a raised
ValueError (match consisting of commas only). -/
inductive AriaParse where
  | raised : AriaParse
  | nores : AriaParse
  | num : Nat → AriaParse
deriving DecidableEq, Repr

/-- Model of `re.search(r"([\d,]+)\s?review", aria, re.IGNORECASE)`
followed by `int(group.replace(",", ""))` (the \s? is \s* in the source):
leftmost maximal [\d,]+ run followed by optional whitespace and the
case-insensitive literal "review". -/
def searchCountAria : List Char → AriaParse
  | [] => .nores
  | c :: cs =>
    if isDigitComma c then
      let run := (c :: cs).takeWhile isDigitComma
      let rest := (c :: cs).dropWhile isDigitComma
      let rest2 := rest.dropWhile isPySpace
      if ciStartsWith ['r', 'e', 'v', 'i', 'e', 'w'] rest2 then
        let ds := run.filter Char.isDigit
        if ds.isEmpty then .raised else .num (natOfDigits ds)
      else searchCountAria cs
    else searchCountAria cs

/-- Model of `_parse_int_from_aria` (src/extractor.py lines 74-80): a None
or falsy aria text yields None before the regex is consulted. -/
def parseIntFromAria (aria : Option String) : AriaParse :=
  match aria with
  | none => .nores
  | some s => if s = "" then .nores else searchCountAria s.data

/-- Model of `re.search(r"\(([\d,]+)\)", text)` followed by int() on the
group (src/test.py lines 169 and 185). -/
def searchParensNum : List Char → AriaParse
  | [] => .nores
  | c :: cs =>
    if c = '(' then
      let run := cs.takeWhile isDigitComma
      let rest := cs.dropWhile isDigitComma
      if run.isEmpty then searchParensNum cs
      else
        match rest with
        | ')' :: _ =>
          let ds := run.filter Char.isDigit
          if ds.isEmpty then .raised else .num (natOfDigits ds)
        | _ => searchParensNum cs
    else searchParensNum cs

/-- Model of `re.search(r"([\d,]+)", text)` followed by int() on the group
(src/test.py lines 191 and 206). -/
def searchRunNum : List Char → AriaParse
  | [] => .nores
  | c :: cs =>
    if isDigitComma c then
      let run := (c :: cs).takeWhile isDigitComma
      let ds := run.filter Char.isDigit
      if ds.isEmpty then .raised else .num (natOfDigits ds)
    else searchRunNum cs

/-- Fuel-indexed kernel of Python str.replace (all non-overlapping
occurrences, scanned left to right); the fuel starts at the input length,
which each step strictly decreases below, so it is never exhausted. -/
def replaceAuxL (pat repl : List Char) : Nat → List Char → List Char
  | _, [] => []
  | 0, l => l
  | fuel + 1, c :: cs =>
    if !pat.isEmpty && startsWithList pat (c :: cs) then
      repl ++ replaceAuxL pat repl fuel ((c :: cs).drop pat.length)
    else
      c :: replaceAuxL pat repl fuel cs

/-- Model of Python s.replace(pat, repl) for nonempty pat. -/
def pyReplace (s pat repl : String) : String :=
  String.mk (replaceAuxL pat.data repl.data s.data.length s.data)

/-- Fuel-indexed kernel of `re.sub(r"Address:\s?", "", aria,
flags=re.IGNORECASE)` with \s? written as \s* in the source
(src/extractor.py line 184): every case-insensitive occurrence of
"Address:" plus trailing whitespace is removed. -/
def subAddrAux : Nat → List Char → List Char
  | _, [] => []
  | 0, l => l
  | fuel + 1, c :: cs =>
    if ciStartsWith ['a', 'd', 'd', 'r', 'e', 's', 's', ':'] (c :: cs) then
      subAddrAux fuel (((c :: cs).drop 8).dropWhile isPySpace)
    else
      c :: subAddrAux fuel cs

/-- Model of the address-tag removal regex substitution. -/
def subAddressAll (s : String) : String :=
  String.mk (subAddrAux s.data.length s.data)

/-- Decimal digit character for a value below ten. -/
def digitCharOf (n : Nat) : Char :=
  Char.ofNat (48 + n % 10)

/-- Fuel-indexed decimal rendering (most significant digit first). -/
def natToStrAux : Nat → Nat → List Char
  | 0, _ => []
  | _ + 1, 0 => []
  | fuel + 1, n => natToStrAux fuel (n / 10) ++ [digitCharOf n]

/-- Model of Python str(n) for a natural number. -/
def natToStr (n : Nat) : String :=
  if n = 0 then "0" else String.mk (natToStrAux (n + 1) n)

/-- Model of Python str(i) for an integer. -/
def intToStr (i : Int) : String :=
  match i with
  | Int.ofNat n => natToStr n
  | Int.negSucc n => "-" ++ natToStr (n + 1)

/-! ## Data model -/

/-- One entry of `recent_negative_reviews` as appended by
`_extract_negative_reviews` in both variants. -/
structure ReviewSample where
  text : String
  rating : Nat
  date : String
deriving DecidableEq, Repr

/-- A candidate review DOM node, as the collectors observe it:
the aria-labels of its `span[role="img"][aria-label]` star icons in DOM
order (none models a get_attribute failure, collapsed to the empty
default by `_attr_or_none ... or ""`), and for every text/date candidate
selector in order, the raw element text (none models an absent element,
whose lookup raises and is caught).  The best-effort expand-more click
(src/extractor.py lines 334-346) only mutates the page and is not
represented. -/
structure ReviewNode where
  starLabels : List (Option String)
  texts : List (Option String)
  dates : List (Option String)
deriving DecidableEq, Repr

/-- The record assembled by get_place_details in both variants.  The
Python float rating is modelled exactly as a rational, which is faithful
for the strict digit patterns the parsers admit. -/
structure PlaceRecord where
  name : Option String
  address : Option String
  rating : Option ℚ
  total_reviews : Nat
  phone : Option String
  website : Option String
  first_review_date : Option String
  recent_negative_reviews : List ReviewSample
deriving DecidableEq, Repr

/-- The dictionary a get_place_details call hands back: either the
assembled record or the error object built in the except clause. -/
inductive Out where
  | success : PlaceRecord → Out
  | failure : String → Out
deriving DecidableEq, Repr

/-! ## Negative-review collector of GoogleMapsExtractorA
(src/extractor.py lines 277-392) -/

/-- First text/date selector hit: element present and its stripped text
nonempty, mirroring the inner loops at src/extractor.py lines 349-368. -/
def firstNonemptyStripped : List (Option String) → Option String
  | [] => none
  | t :: rest =>
    match t with
    | none => firstNonemptyStripped rest
    | some raw =>
      let s := pyStrip raw
      if s = "" then firstNonemptyStripped rest else some s

/-- Loop over the star icons of a node: the first aria-label matching the
star pattern yields the rating. -/
def detectRatingGo : List (Option String) → Option Nat
  | [] => none
  | a :: rest =>
    match searchStarNum (a.getD "") with
    | some k => some k
    | none => detectRatingGo rest

/-- Star-rating detection (src/extractor.py lines 314-324). -/
def detectRating (n : ReviewNode) : Option Nat :=
  detectRatingGo n.starLabels

/-- Rating after the conservative fallback `if rating is None: rating = 1`
(src/extractor.py lines 326-327). -/
def nodeRating (n : ReviewNode) : Nat :=
  (detectRating n).getD 1

/-- What one candidate node contributes before deduplication and the cap:
none when the node is filtered out (rating above 2, or no usable text of
at least 15 characters), otherwise the ReviewSample the source appends
(src/extractor.py lines 326-383). -/
def sampleOf (n : ReviewNode) : Option ReviewSample :=
  if 2 < nodeRating n then none
  else
    match firstNonemptyStripped n.texts with
    | none => none
    | some t =>
      if t.length < 15 then none
      else some ⟨t, nodeRating n, (firstNonemptyStripped n.dates).getD "Recent"⟩

/-- Deduplication key `(text[:80], rating)` (src/extractor.py line 374). -/
def sampleKey (s : ReviewSample) : String × Nat :=
  (s.text.take 80, s.rating)

/-- The per-node loop of `_extract_negative_reviews`
(src/extractor.py lines 311-389): skip filtered nodes, skip seen
deduplication keys, append, and stop once the list reaches
NEGATIVE_REVIEW_LIMIT = 10. -/
def negLoop : List ReviewNode → List ReviewSample → List (String × Nat) → List ReviewSample
  | [], acc, _ => acc
  | n :: rest, acc, seen =>
    match sampleOf n with
    | none => negLoop rest acc seen
    | some s =>
      if sampleKey s ∈ seen then negLoop rest acc seen
      else
        if 10 ≤ (acc ++ [s]).length then acc ++ [s]
        else negLoop rest (acc ++ [s]) (sampleKey s :: seen)

/-- Review-container choice (src/extractor.py lines 300-308): among the
candidate selector results the one with strictly more hits wins; a raised
lookup (none) is skipped. -/
def chooseElems (ls : List (Option (List ReviewNode))) : List ReviewNode :=
  ls.foldl
    (fun best l =>
      match l with
      | none => best
      | some elems => if best.length < elems.length then elems else best)
    []

/-- `_extract_negative_reviews` on the chosen review elements: the scroll
pass (lines 282-298) only loads more nodes into the input list, and the
loop is capped at the first 30 elements (line 311). -/
def extractNegativeReviews (elems : List ReviewNode) : List ReviewSample :=
  negLoop (elems.take 30) [] []

/-! ## Structural lemmas about the collector loop -/

/-- Unfolding equation: a filtered-out node is skipped. -/
theorem negLoop_cons_none {n : ReviewNode} (rest : List ReviewNode)
    (acc : List ReviewSample) (seen : List (String × Nat)) (h : sampleOf n = none) :
    negLoop (n :: rest) acc seen = negLoop rest acc seen := by
  rw [negLoop, h]

/-- Unfolding equation: a contributing node reaches the dedup and cap
checks. -/
theorem negLoop_cons_some {n : ReviewNode} {s : ReviewSample} (rest : List ReviewNode)
    (acc : List ReviewSample) (seen : List (String × Nat)) (h : sampleOf n = some s) :
    negLoop (n :: rest) acc seen =
      if sampleKey s ∈ seen then negLoop rest acc seen
      else if 10 ≤ (acc ++ [s]).length then acc ++ [s]
      else negLoop rest (acc ++ [s]) (sampleKey s :: seen) := by
  rw [negLoop, h]

/-- Unfolding equation for a node with acceptable rating and found text. -/
theorem sampleOf_eq_of_text {n : ReviewNode} {t : String} (h2 : ¬ 2 < nodeRating n)
    (ht : firstNonemptyStripped n.texts = some t) :
    sampleOf n =
      if t.length < 15 then none
      else some ⟨t, nodeRating n, (firstNonemptyStripped n.dates).getD "Recent"⟩ := by
  unfold sampleOf
  rw [if_neg h2, ht]

/-- Every sample the loop returns was either in the accumulator already or
is the contribution of one of the processed nodes. -/
theorem negLoop_mem (s : ReviewSample) :
    ∀ (nodes : List ReviewNode) (acc : List ReviewSample) (seen : List (String × Nat)),
      s ∈ negLoop nodes acc seen → s ∈ acc ∨ ∃ n, n ∈ nodes ∧ sampleOf n = some s := by
  intro nodes
  induction nodes with
  | nil =>
    intro acc seen h
    exact Or.inl (by simpa [negLoop] using h)
  | cons n rest ih =>
    intro acc seen h
    rcases hs : sampleOf n with _ | smp
    · rw [negLoop_cons_none rest acc seen hs] at h
      rcases ih acc seen h with h1 | ⟨m, hm, hsm⟩
      · exact Or.inl h1
      · exact Or.inr ⟨m, List.mem_cons_of_mem _ hm, hsm⟩
    · rw [negLoop_cons_some rest acc seen hs] at h
      by_cases hk : sampleKey smp ∈ seen
      · rw [if_pos hk] at h
        rcases ih acc seen h with h1 | ⟨m, hm, hsm⟩
        · exact Or.inl h1
        · exact Or.inr ⟨m, List.mem_cons_of_mem _ hm, hsm⟩
      · rw [if_neg hk] at h
        by_cases hc : 10 ≤ (acc ++ [smp]).length
        · rw [if_pos hc] at h
          rcases List.mem_append.mp h with h1 | h2
          · exact Or.inl h1
          · have he : s = smp := by simpa using h2
            subst he
            exact Or.inr ⟨n, List.mem_cons_self n rest, hs⟩
        · rw [if_neg hc] at h
          rcases ih (acc ++ [smp]) (sampleKey smp :: seen) h with h1 | ⟨m, hm, hsm⟩
          · rcases List.mem_append.mp h1 with ha | hb
            · exact Or.inl ha
            · have he : s = smp := by simpa using hb
              subst he
              exact Or.inr ⟨n, List.mem_cons_self n rest, hs⟩
          · exact Or.inr ⟨m, List.mem_cons_of_mem _ hm, hsm⟩

/-- The loop never emits two samples with the same deduplication key,
given that the accumulator keys are distinct and already recorded in the
seen set. -/
theorem negLoop_keys_nodup :
    ∀ (nodes : List ReviewNode) (acc : List ReviewSample) (seen : List (String × Nat)),
      (acc.map sampleKey).Nodup → (∀ t ∈ acc, sampleKey t ∈ seen) →
      ((negLoop nodes acc seen).map sampleKey).Nodup := by
  intro nodes
  induction nodes with
  | nil =>
    intro acc seen h1 _
    simpa [negLoop] using h1
  | cons n rest ih =>
    intro acc seen h1 h2
    rcases hs : sampleOf n with _ | smp
    · rw [negLoop_cons_none rest acc seen hs]
      exact ih acc seen h1 h2
    · rw [negLoop_cons_some rest acc seen hs]
      by_cases hk : sampleKey smp ∈ seen
      · rw [if_pos hk]
        exact ih acc seen h1 h2
      · rw [if_neg hk]
        have hnotin : sampleKey smp ∉ acc.map sampleKey := by
          intro hmem
          rcases List.mem_map.mp hmem with ⟨t, ht, hts⟩
          exact hk (hts ▸ h2 t ht)
        have hacc2 : ((acc ++ [smp]).map sampleKey).Nodup := by
          simp only [List.map_append, List.map_cons, List.map_nil]
          rw [List.nodup_append]
          refine ⟨h1, List.nodup_singleton _, ?_⟩
          intro a ha hb
          have : a = sampleKey smp := by simpa using hb
          exact hnotin (this ▸ ha)
        by_cases hc : 10 ≤ (acc ++ [smp]).length
        · rw [if_pos hc]
          exact hacc2
        · rw [if_neg hc]
          refine ih (acc ++ [smp]) (sampleKey smp :: seen) hacc2 ?_
          intro t ht
          rcases List.mem_append.mp ht with ha | hb
          · exact List.mem_cons_of_mem _ (h2 t ha)
          · have : t = smp := by simpa using hb
            simp [this]

/-- The loop never grows the result past the cap of 10. -/
theorem negLoop_len_le :
    ∀ (nodes : List ReviewNode) (acc : List ReviewSample) (seen : List (String × Nat)),
      acc.length < 10 → (negLoop nodes acc seen).length ≤ 10 := by
  intro nodes
  induction nodes with
  | nil =>
    intro acc seen h
    rw [negLoop]
    omega
  | cons n rest ih =>
    intro acc seen h
    rcases hs : sampleOf n with _ | smp
    · rw [negLoop_cons_none rest acc seen hs]
      exact ih acc seen h
    · rw [negLoop_cons_some rest acc seen hs]
      by_cases hk : sampleKey smp ∈ seen
      · rw [if_pos hk]
        exact ih acc seen h
      · rw [if_neg hk]
        by_cases hc : 10 ≤ (acc ++ [smp]).length
        · rw [if_pos hc]
          simp only [List.length_append, List.length_cons, List.length_nil]
          omega
        · rw [if_neg hc]
          refine ih (acc ++ [smp]) (sampleKey smp :: seen) ?_
          simp only [List.length_append, List.length_cons, List.length_nil] at hc ⊢
          omega

/-- filterMap over a list of everywhere-eligible nodes keeps the length. -/
theorem filterMap_sampleOf_length :
    ∀ (l : List ReviewNode), (∀ n ∈ l, (sampleOf n).isSome) →
      (l.filterMap sampleOf).length = l.length := by
  intro l
  induction l with
  | nil => intro _; simp
  | cons n rest ih =>
    intro h
    rcases Option.isSome_iff_exists.mp (h n (List.mem_cons_self n rest)) with ⟨s, hs⟩
    rw [List.filterMap_cons, hs]
    simp [ih (fun m hm => h m (List.mem_cons_of_mem _ hm))]

/-- On a run of all-eligible nodes with pairwise distinct and unseen keys,
the loop appends the contribution of each node in order until exactly the
missing number of samples has been added. -/
theorem negLoop_run_eligible :
    ∀ (nodes : List ReviewNode) (acc : List ReviewSample) (seen : List (String × Nat)) (k : Nat),
      (∀ n ∈ nodes, (sampleOf n).isSome) →
      ((nodes.filterMap sampleOf).map sampleKey).Nodup →
      (∀ km ∈ (nodes.filterMap sampleOf).map sampleKey, km ∉ seen) →
      acc.length + k = 10 → 0 < k → k ≤ nodes.length →
      negLoop nodes acc seen = acc ++ (nodes.take k).filterMap sampleOf := by
  intro nodes
  induction nodes with
  | nil =>
    intro acc seen k _ _ _ _ hkpos hkle
    simp only [List.length_nil] at hkle
    omega
  | cons n rest ih =>
    intro acc seen k hall hnd hfresh hlen hkpos hkle
    rcases Option.isSome_iff_exists.mp (hall n (List.mem_cons_self n rest)) with ⟨smp, hs⟩
    have hfm : (n :: rest).filterMap sampleOf = smp :: rest.filterMap sampleOf := by
      rw [List.filterMap_cons, hs]
    have hkeyfresh : sampleKey smp ∉ seen := by
      apply hfresh
      rw [hfm]
      simp
    have hnd2 : sampleKey smp ∉ (rest.filterMap sampleOf).map sampleKey ∧
        ((rest.filterMap sampleOf).map sampleKey).Nodup := by
      have h0 := hnd
      rw [hfm] at h0
      simpa [List.nodup_cons] using h0
    rw [negLoop_cons_some rest acc seen hs, if_neg hkeyfresh]
    rcases Nat.lt_or_ge 1 k with hk2 | hk1
    · have hc : ¬ 10 ≤ (acc ++ [smp]).length := by
        simp only [List.length_append, List.length_cons, List.length_nil]
        omega
      rw [if_neg hc]
      have hrest : negLoop rest (acc ++ [smp]) (sampleKey smp :: seen)
          = (acc ++ [smp]) ++ (rest.take (k - 1)).filterMap sampleOf := by
        apply ih
        · intro m hm
          exact hall m (List.mem_cons_of_mem _ hm)
        · exact hnd2.2
        · intro km hkm
          simp only [List.mem_cons]
          rintro (he | hseen)
          · exact hnd2.1 (he ▸ hkm)
          · refine hfresh km ?_ hseen
            rw [hfm]
            simp only [List.map_cons, List.mem_cons]
            exact Or.inr hkm
        · simp only [List.length_append, List.length_cons, List.length_nil]
          omega
        · omega
        · simp only [List.length_cons] at hkle
          omega
      rw [hrest]
      have hk' : k = (k - 1) + 1 := by omega
      rw [hk', List.take_succ_cons, List.filterMap_cons, hs]
      simp
    · have hk1' : k = 1 := by omega
      subst hk1'
      have hc : 10 ≤ (acc ++ [smp]).length := by
        simp only [List.length_append, List.length_cons, List.length_nil]
        omega
      rw [if_pos hc]
      rw [show (1 : Nat) = 0 + 1 from rfl, List.take_succ_cons, List.take_zero,
        List.filterMap_cons, hs]
      simp

/-- Unfolding of a successful node contribution. -/
theorem sampleOf_some_props (n : ReviewNode) (s : ReviewSample) (h : sampleOf n = some s) :
    s.rating = nodeRating n ∧ s.rating ≤ 2 ∧ 15 ≤ s.text.length := by
  by_cases h2 : 2 < nodeRating n
  · rw [sampleOf, if_pos h2] at h
    cases h
  · rcases ht : firstNonemptyStripped n.texts with _ | t
    · rw [sampleOf, if_neg h2, ht] at h
      cases h
    · rw [sampleOf_eq_of_text h2 ht] at h
      by_cases hl : t.length < 15
      · rw [if_pos hl] at h
        cases h
      · rw [if_neg hl] at h
        have hse := Option.some.inj h
        rw [← hse]
        refine ⟨rfl, ?_, ?_⟩
        · show nodeRating n ≤ 2
          omega
        · show 15 ≤ t.length
          omega

/-! ## Concrete inputs used by witnesses and counterexamples -/

/-- A node with a "0 stars" icon label: the star regex detects rating 0,
which `if rating is None` does not re-default. -/
def wNodeZero : ReviewNode :=
  ⟨[some "0 stars"], [some "terrible experience at this restaurant"], [some "a year ago"]⟩

/-- An ordinary eligible one-star node. -/
def wNodeGood : ReviewNode :=
  ⟨[some "1 star"], [some "a genuinely awful visit in my opinion"], [some "2 years ago"]⟩

/-- The sample wNodeGood contributes. -/
def wSampleGood : ReviewSample :=
  ⟨"a genuinely awful visit in my opinion", 1, "2 years ago"⟩

/-- A node with no detectable star rating. -/
def wNodeNoStar : ReviewNode :=
  ⟨[some "profile photo"], [some "no star information given here at all"], []⟩

/-- A five-star node, filtered out by the negativity check. -/
def wNodeHigh : ReviewNode :=
  ⟨[some "5 stars"], [some "a lovely time was had by everyone"], []⟩

/-- First duplicate-key node (same text and rating as its partner, but a
different date, so the two contributed samples differ). -/
def wNodeDupA : ReviewNode :=
  ⟨[some "1 star"], [some "identical complaint text shared by two reviews"], [some "2 years ago"]⟩

/-- Second duplicate-key node. -/
def wNodeDupB : ReviewNode :=
  ⟨[some "1 star"], [some "identical complaint text shared by two reviews"], [some "3 years ago"]⟩

/-- Sample of wNodeDupA. -/
def wSampleDupA : ReviewSample :=
  ⟨"identical complaint text shared by two reviews", 1, "2 years ago"⟩

/-- Sample of wNodeDupB. -/
def wSampleDupB : ReviewSample :=
  ⟨"identical complaint text shared by two reviews", 1, "3 years ago"⟩

/-- An eligible node with a distinguishing text suffix. -/
def wEligibleNode (i : Nat) : ReviewNode :=
  ⟨[some "1 star"], [some ("the service was bad on visit number " ++ natToStr i)],
    [some "a year ago"]⟩

/-- Thirty pairwise-distinct eligible nodes. -/
def w30 : List ReviewNode :=
  (List.range 30).map wEligibleNode

/-! ## Claim C2 -/

/-- C2, counterexample: the claim states every collected sample has a
rating in [1,2].  On the node wNodeZero, whose star icon reads "0 stars",
GoogleMapsExtractorA detects rating 0 (which is not None, so the
conservative default does not apply), 0 is not greater than 2, and the
sample is collected with rating 0, outside [1,2]. -/
theorem C2_rating_cex :
    extractNegativeReviews [wNodeZero]
        = [⟨"terrible experience at this restaurant", 0, "a year ago"⟩]
      ∧ ¬ (∀ s ∈ extractNegativeReviews [wNodeZero], 1 ≤ s.rating ∧ s.rating ≤ 2) := by
  constructor
  · rfl
  · decide

/-- C2, amended: a node whose detected star rating is greater than 2
contributes no ReviewSample, a node whose rating is undetectable is
assigned rating 1, and every ReviewSample in the returned list has a
rating that is an integer in [0,2] (a detected "0 star" label is kept
with rating 0). -/
theorem C2_rating_amended :
    (∀ (elems : List ReviewNode) (s : ReviewSample),
        s ∈ extractNegativeReviews elems → s.rating ≤ 2)
    ∧ (∀ n : ReviewNode, detectRating n = none → nodeRating n = 1)
    ∧ (∀ n : ReviewNode, 2 < nodeRating n → sampleOf n = none) := by
  refine ⟨?_, ?_, ?_⟩
  · intro elems s h
    rcases negLoop_mem s (elems.take 30) [] [] h with h1 | ⟨n, _, hsm⟩
    · cases h1
    · exact (sampleOf_some_props n s hsm).2.1
  · intro n h
    simp [nodeRating, h]
  · intro n h
    rw [sampleOf, if_pos h]

/-- C2, witness: the amended statement applied at concrete inputs covering
its three hypotheses. -/
theorem C2_rating_witness :
    (wSampleGood ∈ extractNegativeReviews [wNodeGood] ∧ wSampleGood.rating ≤ 2)
    ∧ nodeRating wNodeNoStar = 1
    ∧ sampleOf wNodeHigh = none :=
  ⟨⟨by decide, C2_rating_amended.1 [wNodeGood] wSampleGood (by decide)⟩,
    C2_rating_amended.2.1 wNodeNoStar (by decide),
    C2_rating_amended.2.2 wNodeHigh (by decide)⟩

/-! ## Claim C3 -/

/-- C3: every ReviewSample appended to the negative-review result has
non-empty text of at least 15 characters; nodes with absent or shorter
text contribute nothing (they never reach the result list). -/
theorem C3_text_minlen :
    ∀ (elems : List ReviewNode) (s : ReviewSample),
      s ∈ extractNegativeReviews elems → s.text ≠ "" ∧ 15 ≤ s.text.length := by
  intro elems s h
  rcases negLoop_mem s (elems.take 30) [] [] h with h1 | ⟨n, _, hsm⟩
  · cases h1
  · have hlen := (sampleOf_some_props n s hsm).2.2
    refine ⟨?_, hlen⟩
    intro he
    rw [he] at hlen
    exact absurd hlen (by decide)

/-- C3, witness. -/
theorem C3_text_minlen_witness :
    wSampleGood ∈ extractNegativeReviews [wNodeGood]
      ∧ wSampleGood.text ≠ "" ∧ 15 ≤ wSampleGood.text.length :=
  ⟨by decide, C3_text_minlen [wNodeGood] wSampleGood (by decide)⟩

/-! ## Claim C4 -/

/-- C4: the collector processes at most the first 30 candidate nodes and
returns at most 10 samples; on 30 eligible nodes with pairwise distinct
deduplication keys the result is exactly the contributions of the first
10 nodes in DOM encounter order. -/
theorem C4_bounded_scan (nodes : List ReviewNode)
    (h30 : nodes.length = 30)
    (hall : ∀ n ∈ nodes, (sampleOf n).isSome)
    (hnd : ((nodes.filterMap sampleOf).map sampleKey).Nodup) :
    extractNegativeReviews nodes = (nodes.take 10).filterMap sampleOf
    ∧ (extractNegativeReviews nodes).length = 10
    ∧ ∀ l : List ReviewNode,
        extractNegativeReviews l = extractNegativeReviews (l.take 30)
        ∧ (extractNegativeReviews l).length ≤ 10 := by
  have htake : nodes.take 30 = nodes := List.take_of_length_le (by omega)
  have heq : extractNegativeReviews nodes = (nodes.take 10).filterMap sampleOf := by
    rw [extractNegativeReviews, htake]
    have h := negLoop_run_eligible nodes [] [] 10 hall hnd (by simp) (by simp) (by omega)
      (by omega)
    simpa using h
  refine ⟨heq, ?_, ?_⟩
  · rw [heq, filterMap_sampleOf_length]
    · simp [h30]
    · intro n hn
      exact hall n (List.take_subset 10 nodes hn)
  · intro l
    constructor
    · rw [extractNegativeReviews, extractNegativeReviews, List.take_take]
      norm_num
    · exact negLoop_len_le (l.take 30) [] [] (by simp)

set_option maxRecDepth 100000 in
/-- C4, witness: thirty concrete eligible nodes, on which the cap yields
exactly ten samples. -/
theorem C4_bounded_scan_witness :
    w30.length = 30 ∧ (extractNegativeReviews w30).length = 10 :=
  ⟨by decide, (C4_bounded_scan w30 (by decide) (by decide) (by decide)).2.1⟩

/-! ## Claim C6 -/

/-- C6: the collector output never contains two samples with the same
(first-80-characters, rating) deduplication key; in particular two
processed nodes with identical key contribute exactly one sample,
whichever comes first. -/
theorem C6_dedup :
    (∀ elems : List ReviewNode, ((extractNegativeReviews elems).map sampleKey).Nodup)
    ∧ (∀ (n1 n2 : ReviewNode) (s1 s2 : ReviewSample),
        sampleOf n1 = some s1 → sampleOf n2 = some s2 → sampleKey s1 = sampleKey s2 →
        extractNegativeReviews [n1, n2] = [s1] ∧ extractNegativeReviews [n2, n1] = [s2]) := by
  constructor
  · intro elems
    exact negLoop_keys_nodup (elems.take 30) [] [] (by simp) (by simp)
  · intro n1 n2 s1 s2 h1 h2 hkey
    constructor
    · show negLoop ([n1, n2].take 30) [] [] = [s1]
      rw [show ([n1, n2].take 30) = [n1, n2] from rfl]
      rw [negLoop_cons_some [n2] [] [] h1, if_neg (by simp), if_neg (by simp)]
      simp only [List.nil_append]
      rw [negLoop_cons_some [] [s1] [sampleKey s1] h2,
        if_pos (by simp [hkey])]
      rfl
    · show negLoop ([n2, n1].take 30) [] [] = [s2]
      rw [show ([n2, n1].take 30) = [n2, n1] from rfl]
      rw [negLoop_cons_some [n1] [] [] h2, if_neg (by simp), if_neg (by simp)]
      simp only [List.nil_append]
      rw [negLoop_cons_some [] [s2] [sampleKey s2] h1,
        if_pos (by simp [hkey])]
      rfl

set_option maxRecDepth 100000 in
/-- C6, witness: two concrete nodes sharing text prefix and rating but
differing in date; each order keeps only the first one's sample. -/
theorem C6_dedup_witness :
    extractNegativeReviews [wNodeDupA, wNodeDupB] = [wSampleDupA]
    ∧ extractNegativeReviews [wNodeDupB, wNodeDupA] = [wSampleDupB] :=
  C6_dedup.2 wNodeDupA wNodeDupB wSampleDupA wSampleDupB (by decide) (by decide) (by decide)

/-! ## First-review-date estimator (src/extractor.py lines 394-475,
src/test.py lines 519-623)

The raw-markup regular-expression scans of tiers 1 and 2 are modelled by
oracle fields holding, for each findall pattern, the list of captured
results on the current page source, and the JSON-LD blocks are modelled by
the datePublished lists structured parsing would extract (none for a block
whose parse fails or that carries no review entries).  ISO date parsing
and the current clock are modelled as an oracle mapping date strings to a
day number and a current day number, so the day arithmetic of the source
is explicit. -/

/-- Environment of _find_first_review_fast. -/
structure FfrEnv where
  blocks : List (Option (List String))
  parseIso : String → Option Int
  nowDays : Int
  yearsFound : List Nat
  monthsFound : List Nat
  weeksFound : List Nat
  visibleDates : List String

/-- Python plural suffix choice for f-string interpolation. -/
def pluralS (n : Int) : String :=
  if 1 < n then "s" else ""

/-- One relative-time phrase, integer variant. -/
def agoString (n : Int) (unit : String) : String :=
  intToStr n ++ " " ++ unit ++ pluralS n ++ " ago"

/-- Plural suffix for naturals. -/
def pluralSN (n : Nat) : String :=
  if 1 < n then "s" else ""

/-- One relative-time phrase, natural-number variant. -/
def agoStringN (n : Nat) (unit : String) : String :=
  natToStr n ++ " " ++ unit ++ pluralSN n ++ " ago"

/-- Python min over a nonempty string list (lexicographic, first wins on
ties). -/
def minString (d : String) (ds : List String) : String :=
  ds.foldl (fun a b => if b < a then b else a) d

/-- Python max over a list of naturals (0 when empty; only consulted on
nonempty lists in the source). -/
def maxNat (l : List Nat) : Nat :=
  l.foldl Nat.max 0

/-- Tier 1, structured metadata (src/extractor.py lines 404-435): the
first JSON-LD block with a nonempty datePublished list whose earliest
date parses produces the rendered phrase; blocks that fail to parse, have
no dates, or whose date string fails ISO parsing are skipped. -/
def tier1Go (e : FfrEnv) : List (Option (List String)) → Option String
  | [] => none
  | b :: rest =>
    match b with
    | none => tier1Go e rest
    | some dates =>
      match dates with
      | [] => tier1Go e rest
      | d :: ds =>
        let oldest := minString d ds
        match e.parseIso (pyReplace oldest "Z" "+00:00") with
        | none => tier1Go e rest
        | some dt =>
          let diff := e.nowDays - dt
          let years := Int.fdiv diff 365
          let months := Int.fdiv (Int.fmod diff 365) 30
          some (if 0 < years then agoString years "year"
                else if 0 < months then agoString months "month"
                else "Recently")

/-- Tier 1 entry point. -/
def tier1Result (e : FfrEnv) : Option String :=
  tier1Go e e.blocks

/-- Tier 2, pattern scan over the page source (src/extractor.py lines
437-454): years beat months beat weeks, each rendered from the maximal
captured magnitude. -/
def tier2Result (e : FfrEnv) : Option String :=
  if e.yearsFound.isEmpty then
    if e.monthsFound.isEmpty then
      if e.weeksFound.isEmpty then none
      else some (agoStringN (maxNat e.weeksFound) "week")
    else some (agoStringN (maxNat e.monthsFound) "month")
  else some (agoStringN (maxNat e.yearsFound) "year")

/-- Tier 3, visible date elements (src/extractor.py lines 456-472): keep
the literal text of the element with the largest parsed year count. -/
def tier3Result (e : FfrEnv) : Option String :=
  let best := e.visibleDates.foldl
    (fun (acc : Nat × Option String) v =>
      match parseDateAgoText v with
      | some y => if y ≠ 0 ∧ acc.1 < y then (y, some v) else acc
      | none => acc)
    (0, none)
  if 0 < best.1 then best.2 else none

/-- _find_first_review_fast: tiers in order, first success wins, hardcoded
fallback phrase otherwise. -/
def findFirstReviewFast (e : FfrEnv) : String :=
  match tier1Result e with
  | some s => s
  | none =>
    match tier2Result e with
    | some s => s
    | none =>
      match tier3Result e with
      | some s => s
      | none => "Several years ago"

/-! ## Claim C7 -/

/-- C7: the estimator's tiers are attempted strictly in order; whenever
the structured-metadata tier produces a result, that result is returned
and the later tiers cannot influence the outcome (the statement holds for
every environment, in particular whatever the pattern-scan tier would
yield). -/
theorem C7_tier_precedence (e : FfrEnv) (s : String) (h : tier1Result e = some s) :
    findFirstReviewFast e = s := by
  rw [findFirstReviewFast, h]

/-- Concrete estimator environment for the C7 witness: structured
metadata gives a three-year-old date while the pattern scan would report
five years. -/
def wFfr : FfrEnv :=
  { blocks := [some ["2019-06-01T00:00:00Z"]]
    parseIso := fun _ => some 0
    nowDays := 1100
    yearsFound := [5]
    monthsFound := []
    weeksFound := []
    visibleDates := [] }

/-- C7, witness: tier 1 yields "3 years ago", tier 2 would yield
"5 years ago", and the estimator returns the tier-1 phrase. -/
theorem C7_tier_precedence_witness :
    tier1Result wFfr = some "3 years ago"
    ∧ tier2Result wFfr = some "5 years ago"
    ∧ findFirstReviewFast wFfr = "3 years ago" :=
  ⟨by decide, by decide, C7_tier_precedence wFfr "3 years ago" (by decide)⟩

/-! ## GoogleMapsExtractorA.get_place_details
(src/extractor.py lines 92-275)

The environment supplies, per CSS selector string, the outcome of the
corresponding selenium lookup.  The only operations of the try block that
can raise an exception reaching the top-level handler are _setup_driver,
driver.get and the driver.title read (everything else is individually
wrapped in catch-and-continue in the source); these three are therefore
modelled in the Except monad. -/

/-- Name selector chain SELECTORS["name"]. -/
def nameSelectors : List String :=
  ["h1.DUwDvf", "h1.fontHeadlineLarge", "h1"]

/-- Rating selector chain SELECTORS["rating"]. -/
def ratingSelectors : List String :=
  ["div.F7nice span[aria-hidden=\"true\"]", "span.ceNzKf[aria-hidden=\"true\"]"]

/-- Review-count selector chain SELECTORS["review_count_buttons"]. -/
def reviewCountSelectors : List String :=
  ["div.F7nice button[aria-label*=\"reviews\"]", "button[aria-label*=\"reviews\"]",
    "button[aria-label*=\"review\"]"]

/-- Address selector SELECTORS["address_button"]. -/
def addressSelector : String :=
  "button[data-item-id=\"address\"]"

/-- Phone selector chain SELECTORS["phone_buttons"]. -/
def phoneSelectors : List String :=
  ["button[data-item-id*=\"phone\"]", "button[aria-label*=\"Phone\"]"]

/-- The title suffix consulted by the name fallback. -/
def gmTitleMarker : String :=
  " - Google Maps"

/-- Outcome of one reviews-tab candidate: the _safe_find_element wait can
miss (absent), or the button is present with its defaulted aria-label and
the success of the script-dispatched click. -/
inductive TabBtn where
  | absent : TabBtn
  | present : String → Bool → TabBtn
deriving DecidableEq, Repr

/-- Oracle environment of one GoogleMapsExtractorA.get_place_details run:
findText gives the raw element text per selector (none when the bounded
wait times out), title the driver.title read, findAria the aria-label
attribute of the first element matching a selector (outer none when the
lookup raises), href the website link's href attribute, tabBtns the
reviews-tab candidates in order, reviewElems the per-selector
review-container results, ffr the estimator environment and quitOk the
outcome of driver.quit during teardown. -/
structure Env where
  setup : Except String Unit
  navigate : Except String Unit
  findText : String → Option String
  title : Except String String
  findAria : String → Option (Option String)
  href : Option (Option String)
  tabBtns : List TabBtn
  reviewElems : List (Option (List ReviewNode))
  ffr : FfrEnv
  quitOk : Except String Unit

/-- _safe_find_text (src/extractor.py lines 51-60): strip the element
text, treat empty as absent, swallow all lookup failures. -/
def safeFindText (env : Env) (sel : String) : Option String :=
  match env.findText sel with
  | none => none
  | some raw =>
    let t := pyStrip raw
    if t = "" then none else some t

/-- First selector of a chain resolving to nonempty text. -/
def firstSelText (env : Env) : List String → Option String
  | [] => none
  | sel :: rest =>
    match safeFindText env sel with
    | some t => some t
    | none => firstSelText env rest

/-- NAME extraction (src/extractor.py lines 144-156): selector chain
first, then the driver.title fallback, which applies only when the title
contains " - Google Maps" and whose title read may raise. -/
def nameField (env : Env) : Except String (Option String) :=
  match firstSelText env nameSelectors with
  | some n => Except.ok (some n)
  | none =>
    match env.title with
    | Except.error e => Except.error e
    | Except.ok t =>
      if strContains t gmTitleMarker then
        Except.ok (some (pyStrip (pyReplace t gmTitleMarker "")))
      else Except.ok none

/-- The anchored pattern `^\d+(\.\d+)?$` of the rating validation
(src/extractor.py line 161). -/
def ratingPatternA (cs : List Char) : Bool :=
  let ds := cs.takeWhile Char.isDigit
  let rest := cs.dropWhile Char.isDigit
  !ds.isEmpty &&
    (rest.isEmpty ||
      (match rest with
       | '.' :: fs => !fs.isEmpty && fs.all Char.isDigit
       | _ => false))

/-- Exact value of float() on a pattern-valid rating text (the comma
replacement of the source is the identity on such texts, since the
pattern admits no comma). -/
def parseDecimal (s : String) : ℚ :=
  match s.data.dropWhile Char.isDigit with
  | [] => (natOfDigits (s.data.takeWhile Char.isDigit) : ℚ)
  | _ :: fs =>
    (natOfDigits (s.data.takeWhile Char.isDigit) : ℚ)
      + (natOfDigits fs : ℚ) / (10 : ℚ) ^ fs.length

/-- RATING extraction loop (src/extractor.py lines 158-164). -/
def ratingGo (env : Env) : List String → Option ℚ
  | [] => none
  | sel :: rest =>
    match safeFindText env sel with
    | none => ratingGo env rest
    | some t =>
      if ratingPatternA (pyStrip t).data then some (parseDecimal t)
      else ratingGo env rest

/-- RATING extraction entry point. -/
def ratingOf (env : Env) : Option ℚ :=
  ratingGo env ratingSelectors

/-- TOTAL REVIEWS from the review-count buttons (src/extractor.py lines
166-177): first candidate whose aria-label parses to a truthy count wins;
raised lookups and parse failures fall through. -/
def totalFromButtonsGo (env : Env) : List String → Nat
  | [] => 0
  | sel :: rest =>
    match env.findAria sel with
    | none => totalFromButtonsGo env rest
    | some aria =>
      match parseIntFromAria aria with
      | AriaParse.num (m + 1) => m + 1
      | _ => totalFromButtonsGo env rest

/-- TOTAL REVIEWS entry point. -/
def totalFromButtons (env : Env) : Nat :=
  totalFromButtonsGo env reviewCountSelectors

/-- Reviews-tab loop (src/extractor.py lines 215-230): a present button
may update a still-zero total from its aria-label before the click; a
successful click breaks the loop, a failing click or raised parse moves
to the next candidate. -/
def tabStep : List TabBtn → Nat → Nat
  | [], tot => tot
  | TabBtn.absent :: rest, tot => tabStep rest tot
  | TabBtn.present aria clickOk :: rest, tot =>
    match parseIntFromAria (some aria) with
    | AriaParse.raised => tabStep rest tot
    | AriaParse.nores => if clickOk then tot else tabStep rest tot
    | AriaParse.num m =>
      if clickOk then (if 0 < m ∧ tot = 0 then m else tot)
      else tabStep rest (if 0 < m ∧ tot = 0 then m else tot)

/-- ADDRESS extraction (src/extractor.py lines 179-187). -/
def addressOf (env : Env) : Option String :=
  match env.findAria addressSelector with
  | none => none
  | some ariaOpt =>
    if ariaOpt.getD "" = "" then none
    else some (pyStrip (subAddressAll (ariaOpt.getD "")))

/-- PHONE extraction loop (src/extractor.py lines 189-201). -/
def phoneGo (env : Env) : List String → Option String
  | [] => none
  | sel :: rest =>
    match env.findAria sel with
    | none => phoneGo env rest
    | some ariaOpt =>
      if ariaOpt.getD "" = "" then phoneGo env rest
      else
        let p := pyStrip (pyReplace (pyReplace (ariaOpt.getD "") "Phone:" "")
          "Copy phone number" "")
        if p = "" then phoneGo env rest else some p

/-- PHONE extraction entry point. -/
def phoneOf (env : Env) : Option String :=
  phoneGo env phoneSelectors

/-- WEBSITE extraction (src/extractor.py lines 203-211): a truthy href
wins, a raised lookup or falsy href leaves the default. -/
def websiteOf (env : Env) : Option String :=
  match env.href with
  | none => none
  | some none => none
  | some (some u) => if u = "" then none else some u

/-- Review total after the buttons pass and the reviews-tab pass, before
the final fix-up (the value at src/extractor.py line 266). -/
def preTotal (env : Env) : Nat :=
  tabStep env.tabBtns (totalFromButtons env)

/-- The negative reviews collected by the run. -/
def pipelineNegatives (env : Env) : List ReviewSample :=
  extractNegativeReviews (chooseElems env.reviewElems)

/-- The record built by the remainder of the try block once the name is
known (src/extractor.py lines 158-269), including the final total-review
fix-up from the collected negatives (lines 266-267). -/
def assembleRest (env : Env) (name : Option String) : PlaceRecord :=
  { name := name
    address := addressOf env
    rating := ratingOf env
    total_reviews :=
      if preTotal env = 0 ∧ pipelineNegatives env ≠ [] then (pipelineNegatives env).length
      else preTotal env
    phone := phoneOf env
    website := websiteOf env
    first_review_date := some (findFirstReviewFast env.ffr)
    recent_negative_reviews := pipelineNegatives env }

/-- The try block of get_place_details: only driver setup, navigation and
the title read can raise. -/
def pipelineBody (env : Env) : Except String PlaceRecord :=
  match env.setup with
  | Except.error e => Except.error e
  | Except.ok _ =>
    match env.navigate with
    | Except.error e => Except.error e
    | Except.ok _ =>
      match nameField env with
      | Except.error e => Except.error e
      | Except.ok nm => Except.ok (assembleRest env nm)

/-- Driver handle after the try block: _setup_driver assigns it only when
the browser construction succeeds. -/
def driverAfterBody (env : Env) : Option Unit :=
  match env.setup with
  | Except.ok _ => some ()
  | Except.error _ => none

/-- _close (src/extractor.py lines 115-121): quit errors are swallowed
and the handle is cleared on every path. -/
def closeDriver : Option Unit → Except String Unit → Option Unit
  | none, _ => none
  | some _, Except.ok _ => none
  | some _, Except.error _ => none

/-- get_place_details of GoogleMapsExtractorA: the try body, the except
clause converting any escaped exception into the error object, and the
finally clause tearing the session down.  The first component is the
value handed to the caller (Except.error would model a propagated raise),
the second the driver handle after the call. -/
def get_place_details_A (env : Env) : Except String Out × Option Unit :=
  (match pipelineBody env with
   | Except.ok r => Except.ok (Out.success r)
   | Except.error e => Except.ok (Out.failure ("Extraction failed: " ++ e)),
   closeDriver (driverAfterBody env) env.quitOk)

/-! ## Claim C5 -/

/-- An estimator environment with everything absent. -/
def emptyFfr : FfrEnv :=
  { blocks := []
    parseIso := fun _ => none
    nowDays := 0
    yearsFound := []
    monthsFound := []
    weeksFound := []
    visibleDates := [] }

/-- Environment whose rating element displays the numeral "9". -/
def cEnv5 : Env :=
  { setup := Except.ok ()
    navigate := Except.ok ()
    findText := fun sel =>
      if sel = "div.F7nice span[aria-hidden=\"true\"]" then some "9" else none
    title := Except.ok ""
    findAria := fun _ => none
    href := none
    tabBtns := []
    reviewElems := []
    ffr := emptyFfr
    quitOk := Except.ok () }

/-- The record cEnv5 produces. -/
def cRec5 : PlaceRecord :=
  assembleRest cEnv5 none

/-- C5, counterexample: the claim bounds a non-None rating by 5, but the
validation pattern `^\d+(\.\d+)?$` has no upper bound: a page whose
rating element shows "9" yields the assembled record rating 9, outside
[0,5]. -/
theorem C5_rating_cex :
    pipelineBody cEnv5 = Except.ok cRec5
    ∧ cRec5.rating = some (9 : ℚ)
    ∧ ¬ ((9 : ℚ) ≤ 5) := by
  refine ⟨rfl, by decide, by norm_num⟩

/-- Every parsed rating value is nonnegative. -/
theorem parseDecimal_nonneg (s : String) : 0 ≤ parseDecimal s := by
  rw [parseDecimal]
  rcases s.data.dropWhile Char.isDigit with _ | ⟨c, fs⟩
  · positivity
  · positivity

/-- Unfolding equation for the rating chain on a resolving selector. -/
theorem ratingGo_cons_some (env : Env) {sel t : String} {rest : List String}
    (ht : safeFindText env sel = some t) :
    ratingGo env (sel :: rest) =
      if ratingPatternA (pyStrip t).data then some (parseDecimal t)
      else ratingGo env rest := by
  rw [ratingGo, ht]

/-- Rating chain yields only parsed values. -/
theorem ratingGo_nonneg (env : Env) :
    ∀ (sels : List String) (q : ℚ), ratingGo env sels = some q → 0 ≤ q := by
  intro sels
  induction sels with
  | nil =>
    intro q h
    cases h
  | cons sel rest ih =>
    intro q h
    rcases ht : safeFindText env sel with _ | t
    · rw [ratingGo, ht] at h
      exact ih q h
    · rw [ratingGo_cons_some env ht] at h
      by_cases hp : ratingPatternA (pyStrip t).data = true
      · rw [if_pos hp] at h
        rw [← Option.some.inj h]
        exact parseDecimal_nonneg t
      · rw [if_neg hp] at h
        exact ih q h

/-- C5, amended: whenever the assembled rating is not None it is a
nonnegative decimal (the parsed value of the strictly numeric display
text); the source imposes no upper bound of 5. -/
theorem C5_rating_amended (env : Env) (q : ℚ) (h : ratingOf env = some q) : 0 ≤ q :=
  ratingGo_nonneg env ratingSelectors q h

/-- C5, witness. -/
theorem C5_rating_witness :
    ratingOf cEnv5 = some (parseDecimal "9") ∧ 0 ≤ parseDecimal "9" :=
  ⟨rfl, C5_rating_amended cEnv5 (parseDecimal "9") rfl⟩

/-! ## Claim C8 -/

/-- Environment where no selector resolves but the page title carries the
" - Google Maps" suffix. -/
def cEnv8 : Env :=
  { setup := Except.ok ()
    navigate := Except.ok ()
    findText := fun _ => none
    title := Except.ok "Cafe Test - Google Maps"
    findAria := fun _ => none
    href := none
    tabBtns := []
    reviewElems := []
    ffr := emptyFfr
    quitOk := Except.ok () }

/-- Environment where no selector resolves and the title has no marker. -/
def cEnvMiss : Env :=
  { setup := Except.ok ()
    navigate := Except.ok ()
    findText := fun _ => none
    title := Except.ok "Untitled"
    findAria := fun _ => none
    href := none
    tabBtns := []
    reviewElems := []
    ffr := emptyFfr
    quitOk := Except.ok () }

/-- C8, counterexample: the claim promises name None whenever no name
selector candidate resolves, but the source has a further fallback: with
every selector missing and title "Cafe Test - Google Maps", the returned
name is "Cafe Test", not None. -/
theorem C8_name_cex :
    (nameSelectors.all fun sel => (safeFindText cEnv8 sel).isNone) = true
    ∧ nameField cEnv8 = Except.ok (some "Cafe Test") := by
  refine ⟨by decide, rfl⟩

/-- Selector-chain misses leave the name chain empty. -/
theorem firstSelText_none (env : Env) :
    ∀ sels : List String, (∀ sel ∈ sels, safeFindText env sel = none) →
      firstSelText env sels = none := by
  intro sels
  induction sels with
  | nil => intro _; rfl
  | cons sel rest ih =>
    intro h
    rw [firstSelText, h sel (List.mem_cons_self sel rest)]
    exact ih (fun x hx => h x (List.mem_cons_of_mem _ hx))

/-- Selector-chain misses leave the rating at its default. -/
theorem ratingGo_none (env : Env) :
    ∀ sels : List String, (∀ sel ∈ sels, safeFindText env sel = none) →
      ratingGo env sels = none := by
  intro sels
  induction sels with
  | nil => intro _; rfl
  | cons sel rest ih =>
    intro h
    rw [ratingGo, h sel (List.mem_cons_self sel rest)]
    exact ih (fun x hx => h x (List.mem_cons_of_mem _ hx))

/-- Candidate misses leave the phone at its default. -/
theorem phoneGo_none (env : Env) :
    ∀ sels : List String, (∀ sel ∈ sels, env.findAria sel = none) →
      phoneGo env sels = none := by
  intro sels
  induction sels with
  | nil => intro _; rfl
  | cons sel rest ih =>
    intro h
    rw [phoneGo, h sel (List.mem_cons_self sel rest)]
    exact ih (fun x hx => h x (List.mem_cons_of_mem _ hx))

/-- Unfolding equation for the name field when all selectors miss. -/
theorem nameField_eq_title (env : Env) (t : String)
    (hmiss : firstSelText env nameSelectors = none) (htitle : env.title = Except.ok t) :
    nameField env =
      (if strContains t gmTitleMarker then
        Except.ok (some (pyStrip (pyReplace t gmTitleMarker "")))
      else Except.ok none) := by
  rw [nameField, hmiss, htitle]

/-- C8, amended: exhausting all candidates leaves each field at its
default without an error; for the name this additionally requires that
the title fallback does not fire, i.e. the page title lacks the
" - Google Maps" marker. -/
theorem C8_defaults_amended :
    (∀ (env : Env) (t : String),
      (∀ sel ∈ nameSelectors, safeFindText env sel = none) →
      env.title = Except.ok t → strContains t gmTitleMarker = false →
      nameField env = Except.ok none)
    ∧ (∀ env : Env, (∀ sel ∈ ratingSelectors, safeFindText env sel = none) →
        ratingOf env = none)
    ∧ (∀ env : Env, (∀ sel ∈ phoneSelectors, env.findAria sel = none) →
        phoneOf env = none) := by
  refine ⟨?_, ?_, ?_⟩
  · intro env t hmiss htitle hmk
    rw [nameField_eq_title env t (firstSelText_none env nameSelectors hmiss) htitle, hmk]
    rfl
  · intro env hmiss
    exact ratingGo_none env ratingSelectors hmiss
  · intro env hmiss
    exact phoneGo_none env phoneSelectors hmiss

/-- C8, witness: with all candidates missing and a marker-free title, the
name and rating fields are their defaults. -/
theorem C8_defaults_witness :
    nameField cEnvMiss = Except.ok none ∧ ratingOf cEnvMiss = none :=
  ⟨C8_defaults_amended.1 cEnvMiss "Untitled" (by decide) rfl (by decide),
    C8_defaults_amended.2.1 cEnvMiss (by decide)⟩

/-! ## Claim C10 -/

/-- C10: on a successful run, a zero pre-fix-up total together with
collected negatives is replaced by the negatives count, so no success
record pairs total_reviews = 0 with a nonempty negative-review list. -/
theorem C10_total_fixup (env : Env) (r : PlaceRecord) (h : pipelineBody env = Except.ok r) :
    (preTotal env = 0 → r.recent_negative_reviews ≠ [] →
      r.total_reviews = r.recent_negative_reviews.length)
    ∧ ¬ (r.total_reviews = 0 ∧ r.recent_negative_reviews ≠ []) := by
  rw [pipelineBody] at h
  split at h
  · cases h
  · split at h
    · cases h
    · split at h
      · cases h
      · rename_i nm heq
        have hr := Except.ok.inj h
        subst hr
        constructor
        · intro hpre hne
          simp only [assembleRest] at hne ⊢
          rw [if_pos ⟨hpre, hne⟩]
        · rintro ⟨h0, hne⟩
          simp only [assembleRest] at h0 hne
          by_cases hpre : preTotal env = 0
          · rw [if_pos ⟨hpre, hne⟩] at h0
            exact hne (List.length_eq_zero.mp h0)
          · rw [if_neg (fun hc => hpre hc.1)] at h0
            exact hpre h0

/-- Environment for the C10 witness: a name resolves, no review count is
found anywhere, and one eligible negative review node is collected. -/
def cEnvB : Env :=
  { setup := Except.ok ()
    navigate := Except.ok ()
    findText := fun sel => if sel = "h1.DUwDvf" then some "Testaurant" else none
    title := Except.ok ""
    findAria := fun _ => none
    href := none
    tabBtns := []
    reviewElems := [some [wNodeGood]]
    ffr := emptyFfr
    quitOk := Except.ok () }

/-- The record cEnvB produces. -/
def wRecB : PlaceRecord :=
  assembleRest cEnvB (some "Testaurant")

/-- C10, witness: one collected negative review and no other count makes
the returned total exactly 1. -/
theorem C10_total_fixup_witness :
    wRecB.recent_negative_reviews = [wSampleGood] ∧ wRecB.total_reviews = 1 := by
  refine ⟨by decide, ?_⟩
  have h := (C10_total_fixup cEnvB wRecB rfl).1 (by decide) (by decide)
  rw [h]
  decide

/-! ## GoogleMapsExtractor (src/test.py lines 30-623)

The near-duplicate variant.  It differs from GoogleMapsExtractorA in the
points embedded below: the title fallback sits inside the swallowed name
try block, the rating pattern is `^\d\.?\d?$`, review counting has five
fallback methods, review collection is gated on the reviews tab having
been opened, the node pool cap is 15, text must exceed 15 characters, the
dedup key is the f-string of the first 50 characters and the rating, and
a falsy (zero) detected star rating is re-defaulted to 1. -/

/-- Review-count selector chain of method 1 (src/test.py lines 142-146). -/
def reviewCountSelectorsT : List String :=
  ["div.F7nice button[aria-label*=\"reviews\"]", "button[aria-label*=\"reviews\"]",
    "div.F7nice button[aria-label*=\"review\"]"]

/-- Outcome of one reviews-tab candidate in the test variant: the
clickability wait can miss, else the button carries a get_attribute
result (outer none when that call raises, inner the attribute value) and
a click outcome. -/
inductive TabCandT where
  | absent : TabCandT
  | present : Option (Option String) → Bool → TabCandT
deriving DecidableEq, Repr

/-- What _extract_reviews_with_sorting hands back
(src/test.py lines 298-302). -/
structure ReviewsData where
  negative_reviews : List ReviewSample
  first_review_date : Option String
  total_count : Nat
deriving DecidableEq, Repr

/-- Oracle environment of one GoogleMapsExtractor.get_place_details
run. -/
structure TEnv where
  setup : Except String Unit
  navigate : Except String Unit
  findText : String → Option String
  title : Option String
  findRatingText : String → Option String
  findAria : String → Option (Option String)
  f7niceText : Option String
  f7niceSpans : Option (List String)
  f7niceButtons : Option (List String)
  sourceCaps : List (List String)
  href : Option (Option String)
  tabCands : List TabCandT
  reviewElems : List (Option (List ReviewNode))
  ffr : FfrEnv
  quitOk : Except String Unit

/-- Bounded presence wait plus nonempty stripped text, as in the name
loop (src/test.py lines 95-106). -/
def safeFindTextT (env : TEnv) (sel : String) : Option String :=
  match env.findText sel with
  | none => none
  | some raw =>
    let t := pyStrip raw
    if t = "" then none else some t

/-- First selector of a chain resolving to nonempty text. -/
def firstSelTextT (env : TEnv) : List String → Option String
  | [] => none
  | sel :: rest =>
    match safeFindTextT env sel with
    | some t => some t
    | none => firstSelTextT env rest

/-- Name extraction (src/test.py lines 93-114): selector chain, then the
title fallback inside the same swallowed block (a raised title read
leaves the name None). -/
def nameT (env : TEnv) : Option String :=
  match firstSelTextT env nameSelectors with
  | some n => some n
  | none =>
    match env.title with
    | none => none
    | some t =>
      if t ≠ "" ∧ strContains t gmTitleMarker then
        some (pyStrip (pyReplace t gmTitleMarker ""))
      else none

/-- The anchored pattern `^\d\.?\d?$` of the test-variant rating
validation (src/test.py line 128). -/
def ratingPatternT : List Char → Bool
  | [a] => a.isDigit
  | [a, b] => a.isDigit && (b = '.' || b.isDigit)
  | [a, b, c] => a.isDigit && b = '.' && c.isDigit
  | _ => false

/-- Rating extraction loop (src/test.py lines 116-135). -/
def ratingGoT (env : TEnv) : List String → Option ℚ
  | [] => none
  | sel :: rest =>
    match env.findRatingText sel with
    | none => ratingGoT env rest
    | some raw =>
      let t := pyStrip raw
      if t ≠ "" ∧ ratingPatternT t.data then some (parseDecimal t)
      else ratingGoT env rest

/-- Rating extraction entry point (same two selectors as the A variant). -/
def ratingOfT (env : TEnv) : Option ℚ :=
  ratingGoT env ratingSelectors

/-- Review-count method 1: aria-labels of candidate buttons
(src/test.py lines 141-160); a match sets the count (even zero) and
stops. -/
def m1Go (env : TEnv) : List String → Option Nat
  | [] => none
  | sel :: rest =>
    match env.findAria sel with
    | none => m1Go env rest
    | some none => m1Go env rest
    | some (some a) =>
      if containsCISub ['r', 'e', 'v', 'i', 'e', 'w'] a.data then
        match searchCountAria a.data with
        | AriaParse.num n => some n
        | AriaParse.raised => m1Go env rest
        | AriaParse.nores => m1Go env rest
      else m1Go env rest

/-- Review-count method 2: "(1,234)" in the rating-section text
(src/test.py lines 162-174); a raised int() abandons the method. -/
def m2Val (env : TEnv) : Option Nat :=
  match env.f7niceText with
  | none => none
  | some txt =>
    match searchParensNum txt.data with
    | AriaParse.num n => some n
    | _ => none

/-- Review-count method 3 span loop (src/test.py lines 176-197); a raised
int() aborts the whole loop. -/
def m3Go : List String → Option Nat
  | [] => none
  | s0 :: rest =>
    let t := pyStrip s0
    if strContains t "(" ∧ strContains t ")" then
      match searchParensNum t.data with
      | AriaParse.num n => some n
      | AriaParse.nores => m3Go rest
      | AriaParse.raised => none
    else if containsCISub ['r', 'e', 'v', 'i', 'e', 'w'] t.data then
      match searchRunNum t.data with
      | AriaParse.num n => some n
      | AriaParse.nores => m3Go rest
      | AriaParse.raised => none
    else m3Go rest

/-- Review-count method 3 entry point. -/
def m3Val (env : TEnv) : Option Nat :=
  match env.f7niceSpans with
  | none => none
  | some spans => m3Go spans

/-- Review-count method 4 button loop (src/test.py lines 199-214), with
the [1, 1000000] plausibility bound. -/
def m4Go : List String → Option Nat
  | [] => none
  | b :: rest =>
    let t := pyStrip b
    if t ≠ "" ∧ t.data.any Char.isDigit then
      match searchRunNum t.data with
      | AriaParse.num n => if 1 ≤ n ∧ n ≤ 1000000 then some n else m4Go rest
      | AriaParse.nores => m4Go rest
      | AriaParse.raised => none
    else m4Go rest

/-- Review-count method 4 entry point. -/
def m4Val (env : TEnv) : Option Nat :=
  match env.f7niceButtons with
  | none => none
  | some bts => m4Go bts

/-- Review-count method 5 inner loop over one pattern's captures
(src/test.py lines 228-237); digitless captures raise and continue. -/
def m5Inner : List String → Nat
  | [] => 0
  | cap :: rest =>
    let ds := cap.data.filter Char.isDigit
    if ds.isEmpty then m5Inner rest
    else
      let n := natOfDigits ds
      if 1 ≤ n ∧ n ≤ 1000000 then n else m5Inner rest

/-- Review-count method 5 over the three page-source patterns
(src/test.py lines 216-241). -/
def m5Go : List (List String) → Nat
  | [] => 0
  | caps :: rest =>
    if m5Inner caps ≠ 0 then m5Inner caps else m5Go rest

/-- The five review-count methods chained on a still-zero total
(src/test.py lines 137-244). -/
def totalReviewsT (env : TEnv) : Nat :=
  let t1 := (m1Go env reviewCountSelectorsT).getD 0
  let t2 := if t1 = 0 then (m2Val env).getD 0 else t1
  let t3 := if t2 = 0 then (m3Val env).getD 0 else t2
  let t4 := if t3 = 0 then (m4Val env).getD 0 else t3
  if t4 = 0 then m5Go env.sourceCaps else t4

/-- Address extraction (src/test.py lines 246-254). -/
def addressT (env : TEnv) : Option String :=
  match env.findAria addressSelector with
  | none => none
  | some none => none
  | some (some a) =>
    if a = "" then none
    else some (pyStrip (pyReplace a "Address: " ""))

/-- Phone extraction loop (src/test.py lines 256-270): the first truthy
aria-label is taken, even when the cleaned value is empty. -/
def phoneGoT (env : TEnv) : List String → Option String
  | [] => none
  | sel :: rest =>
    match env.findAria sel with
    | none => phoneGoT env rest
    | some none => phoneGoT env rest
    | some (some a) =>
      if a = "" then phoneGoT env rest
      else some (pyStrip (pyReplace (pyReplace a "Phone: " "") "Copy phone number" ""))

/-- Phone extraction entry point. -/
def phoneT (env : TEnv) : Option String :=
  phoneGoT env phoneSelectors

/-- Website extraction (src/test.py lines 272-278): the href attribute is
assigned unconditionally once the link is found. -/
def websiteT (env : TEnv) : Option String :=
  match env.href with
  | none => none
  | some h => h

/-- Reviews-tab loop (src/test.py lines 306-329): a truthy aria-label may
set total_count (unconditionally overwriting) before the click; a
successful click stops with clicked = true; exhaustion leaves clicked =
false. -/
def tabLoopT : List TabCandT → Nat → Bool × Nat
  | [], tc => (false, tc)
  | TabCandT.absent :: rest, tc => tabLoopT rest tc
  | TabCandT.present ariaRes clickOk :: rest, tc =>
    match ariaRes with
    | none => tabLoopT rest tc
    | some none => if clickOk then (true, tc) else tabLoopT rest tc
    | some (some a) =>
      if a = "" then (if clickOk then (true, tc) else tabLoopT rest tc)
      else
        match searchCountAria a.data with
        | AriaParse.raised => tabLoopT rest tc
        | AriaParse.nores => if clickOk then (true, tc) else tabLoopT rest tc
        | AriaParse.num n => if clickOk then (true, n) else tabLoopT rest n

/-- Star detection in the test collector (src/test.py lines 432-447):
only labels containing "star" are searched. -/
def detectRatingGoT : List (Option String) → Option Nat
  | [] => none
  | a :: rest =>
    match a with
    | none => detectRatingGoT rest
    | some s =>
      if containsCISub ['s', 't', 'a', 'r'] s.data then
        match searchStarNum s with
        | some k => some k
        | none => detectRatingGoT rest
      else detectRatingGoT rest

/-- Rating after the falsy re-default `if not rating: rating = 1`
(src/test.py lines 444-447): both an undetectable and a zero rating
become 1. -/
def ratingValT (n : ReviewNode) : Nat :=
  match detectRatingGoT n.starLabels with
  | none => 1
  | some 0 => 1
  | some (k + 1) => k + 1

/-- What one node contributes in the test collector (src/test.py lines
430-510): ratings above 2 are skipped and text must exceed 15
characters. -/
def sampleOfT (n : ReviewNode) : Option ReviewSample :=
  if 2 < ratingValT n then none
  else
    match firstNonemptyStripped n.texts with
    | none => none
    | some t =>
      if 15 < t.length then
        some ⟨t, ratingValT n, (firstNonemptyStripped n.dates).getD "Recent"⟩
      else none

/-- Test-variant dedup key f"{text[:50]}_{rating}"
(src/test.py line 497). -/
def sampleKeyT (s : ReviewSample) : String :=
  s.text.take 50 ++ "_" ++ natToStr s.rating

/-- Per-node loop of the test collector, cap 10. -/
def negLoopT : List ReviewNode → List ReviewSample → List String → List ReviewSample
  | [], acc, _ => acc
  | n :: rest, acc, seen =>
    match sampleOfT n with
    | none => negLoopT rest acc seen
    | some s =>
      if sampleKeyT s ∈ seen then negLoopT rest acc seen
      else
        if 10 ≤ (acc ++ [s]).length then acc ++ [s]
        else negLoopT rest (acc ++ [s]) (sampleKeyT s :: seen)

/-- Test-variant _extract_negative_reviews, node pool capped at 15
(src/test.py line 430). -/
def extractNegativeReviewsT (elems : List ReviewNode) : List ReviewSample :=
  negLoopT (elems.take 15) [] []

/-- _extract_reviews_with_sorting (src/test.py lines 296-385): when no
reviews-tab candidate clicks, the default data is returned and neither
the collector nor the estimator runs; the sort sub-flow has no effect on
the returned data. -/
def extractReviewsWithSorting (env : TEnv) : ReviewsData :=
  if (tabLoopT env.tabCands 0).1 then
    { negative_reviews := extractNegativeReviewsT (chooseElems env.reviewElems)
      first_review_date := some (findFirstReviewFast env.ffr)
      total_count := (tabLoopT env.tabCands 0).2 }
  else
    { negative_reviews := []
      first_review_date := none
      total_count := (tabLoopT env.tabCands 0).2 }

/-- The record assembled by the test-variant try block
(src/test.py lines 80-289), including the total fix-up from the tab
count (lines 286-287). -/
def assembleT (env : TEnv) : PlaceRecord :=
  { name := nameT env
    address := addressT env
    rating := ratingOfT env
    total_reviews :=
      if totalReviewsT env = 0 ∧ (extractReviewsWithSorting env).total_count ≠ 0 then
        (extractReviewsWithSorting env).total_count
      else totalReviewsT env
    phone := phoneT env
    website := websiteT env
    first_review_date := (extractReviewsWithSorting env).first_review_date
    recent_negative_reviews := (extractReviewsWithSorting env).negative_reviews }

/-- The test-variant try block: only setup and navigation can raise; all
field extraction below them is individually swallowed. -/
def bodyT (env : TEnv) : Except String PlaceRecord :=
  match env.setup with
  | Except.error e => Except.error e
  | Except.ok _ =>
    match env.navigate with
    | Except.error e => Except.error e
    | Except.ok _ => Except.ok (assembleT env)

/-- Driver handle after the test-variant try block. -/
def driverAfterBodyT (env : TEnv) : Option Unit :=
  match env.setup with
  | Except.ok _ => some ()
  | Except.error _ => none

/-- get_place_details of GoogleMapsExtractor (src/test.py lines 70-294):
try body, error-object conversion, guaranteed teardown. -/
def get_place_details_T (env : TEnv) : Except String Out × Option Unit :=
  (match bodyT env with
   | Except.ok r => Except.ok (Out.success r)
   | Except.error e => Except.ok (Out.failure ("Extraction failed: " ++ e)),
   closeDriver (driverAfterBodyT env) env.quitOk)

/-! ## Claim C9 -/

/-- Teardown always clears the handle, whatever quit does. -/
theorem closeDriver_eq_none (d : Option Unit) (q : Except String Unit) :
    closeDriver d q = none := by
  cases d with
  | none => rfl
  | some u =>
    cases q with
    | ok v => rfl
    | error e => rfl

/-- The clicked flag of the reviews-tab loop of GoogleMapsExtractorA
(src/extractor.py lines 215-233): a candidate sets it only when the
button is present, the aria parse does not raise, and the
script-dispatched click succeeds; exhaustion leaves it false and the
code merely prints and continues. -/
def tabClicked : List TabBtn → Bool
  | [] => false
  | TabBtn.absent :: rest => tabClicked rest
  | TabBtn.present aria clickOk :: rest =>
    match parseIntFromAria (some aria) with
    | AriaParse.raised => tabClicked rest
    | _ => if clickOk then true else tabClicked rest

/-- Environment for the C9 counterexample: both reviews-tab candidates
fail (one absent, one whose click raises), yet an eligible review node is
visible on the page. -/
def cEnv9 : Env :=
  { setup := Except.ok ()
    navigate := Except.ok ()
    findText := fun sel => if sel = "h1.DUwDvf" then some "Testaurant" else none
    title := Except.ok ""
    findAria := fun _ => none
    href := none
    tabBtns := [TabBtn.absent, TabBtn.present "" false]
    reviewElems := [some [wNodeGood]]
    ffr := emptyFfr
    quitOk := Except.ok () }

/-- The record cEnv9 produces. -/
def wRec9 : PlaceRecord :=
  assembleRest cEnv9 (some "Testaurant")

/-- C9, counterexample: the claim promises that when every open-reviews
action fails, no reviews are collected and the record's negative-review
list is empty.  In GoogleMapsExtractorA the unclicked branch only prints
(src/extractor.py lines 232-233) and _extract_negative_reviews still runs
unconditionally (line 257): on cEnv9 the reviews tab is never opened, yet
the returned success record carries one collected negative review. -/
theorem C9_skip_cex :
    tabClicked cEnv9.tabBtns = false
    ∧ get_place_details_A cEnv9 = (Except.ok (Out.success wRec9), none)
    ∧ wRec9.recent_negative_reviews = [wSampleGood]
    ∧ wRec9.recent_negative_reviews ≠ [] := by
  refine ⟨by decide, rfl, by decide, by decide⟩

/-- C9, amended: when every candidate open-reviews action fails, the
extraction does not fail in either variant: the pipeline still returns a
normal (non-error) success record with the session torn down.  Only in
GoogleMapsExtractor (test.py) are the downstream review-collection steps
skipped so that the record's negative-review list is empty; in
GoogleMapsExtractorA the collector still runs on whatever review nodes
the overview page shows. -/
theorem C9_reviews_amended :
    (∀ (env : Env) (nm : Option String),
      tabClicked env.tabBtns = false →
      env.setup = Except.ok () → env.navigate = Except.ok () →
      nameField env = Except.ok nm →
      get_place_details_A env = (Except.ok (Out.success (assembleRest env nm)), none))
    ∧ (∀ env : TEnv,
      env.setup = Except.ok () → env.navigate = Except.ok () →
      (tabLoopT env.tabCands 0).1 = false →
      get_place_details_T env = (Except.ok (Out.success (assembleT env)), none)
      ∧ (assembleT env).recent_negative_reviews = []) := by
  constructor
  · intro env nm _ hs hn hname
    have hb : pipelineBody env = Except.ok (assembleRest env nm) := by
      rw [pipelineBody, hs, hn, hname]
    rw [get_place_details_A, hb, closeDriver_eq_none]
  · intro env hs hn hfail
    have hb : bodyT env = Except.ok (assembleT env) := by
      rw [bodyT, hs, hn]
    constructor
    · rw [get_place_details_T, hb, closeDriver_eq_none]
    · show (extractReviewsWithSorting env).negative_reviews = []
      rw [extractReviewsWithSorting, hfail]
      rfl

/-- Concrete environment for the C9 witness: all three reviews-tab
candidates fail (a timed-out wait, a raised attribute read, a failing
click whose aria-label still sets total_count), while eligible review
nodes do sit in the DOM. -/
def wTEnv : TEnv :=
  { setup := Except.ok ()
    navigate := Except.ok ()
    findText := fun sel => if sel = "h1.DUwDvf" then some "Testaurant" else none
    title := none
    findRatingText := fun _ => none
    findAria := fun _ => none
    f7niceText := none
    f7niceSpans := none
    f7niceButtons := none
    sourceCaps := []
    href := none
    tabCands := [TabCandT.absent, TabCandT.present none true,
      TabCandT.present (some (some "12 reviews")) false]
    reviewElems := [some [wNodeGood]]
    ffr := emptyFfr
    quitOk := Except.ok () }

/-- C9, witness: both conjuncts of the amended statement exercised — the
A variant on cEnv9 (tab candidates all failing, normal record returned)
and the test variant on wTEnv (tab loop unclicked, success record with an
empty negative-review list despite a collectible node). -/
theorem C9_reviews_amended_witness :
    (tabClicked cEnv9.tabBtns = false
      ∧ get_place_details_A cEnv9
          = (Except.ok (Out.success (assembleRest cEnv9 (some "Testaurant"))), none))
    ∧ (tabLoopT wTEnv.tabCands 0).1 = false
    ∧ get_place_details_T wTEnv = (Except.ok (Out.success (assembleT wTEnv)), none)
    ∧ (assembleT wTEnv).recent_negative_reviews = [] :=
  ⟨⟨by decide,
      C9_reviews_amended.1 cEnv9 (some "Testaurant") (by decide) rfl rfl rfl⟩,
    by decide,
    (C9_reviews_amended.2 wTEnv rfl rfl (by decide)).1,
    (C9_reviews_amended.2 wTEnv rfl rfl (by decide)).2⟩

/-! ## Claim C1 -/

/-- C1: in both variants, get_place_details never hands an exception to
its caller: for every environment the first component is Except.ok, equal
to the success record exactly when the try body succeeded and otherwise
to the error object built from the escaped exception, and the driver
handle is cleared on both paths. -/
theorem C1_outer_boundary :
    (∀ env : Env,
      (∃ r, pipelineBody env = Except.ok r
        ∧ get_place_details_A env = (Except.ok (Out.success r), none))
      ∨ (∃ e, pipelineBody env = Except.error e
        ∧ get_place_details_A env
            = (Except.ok (Out.failure ("Extraction failed: " ++ e)), none)))
    ∧ (∀ env : TEnv,
      (∃ r, bodyT env = Except.ok r
        ∧ get_place_details_T env = (Except.ok (Out.success r), none))
      ∨ (∃ e, bodyT env = Except.error e
        ∧ get_place_details_T env
            = (Except.ok (Out.failure ("Extraction failed: " ++ e)), none))) := by
  constructor
  · intro env
    rcases hb : pipelineBody env with e | r
    · right
      refine ⟨e, rfl, ?_⟩
      rw [get_place_details_A, hb, closeDriver_eq_none]
    · left
      refine ⟨r, rfl, ?_⟩
      rw [get_place_details_A, hb, closeDriver_eq_none]
  · intro env
    rcases hb : bodyT env with e | r
    · right
      refine ⟨e, rfl, ?_⟩
      rw [get_place_details_T, hb, closeDriver_eq_none]
    · left
      refine ⟨r, rfl, ?_⟩
      rw [get_place_details_T, hb, closeDriver_eq_none]

end GMaps




